import Mathlib

/-!
Verification of the k8s-peering repository (operator + managed server).

The operator (src/src/operator/index.ts) is embedded as pure functions over an
explicit cluster-state record; the Kubernetes API server is modelled as that
state plus an error-injection record (each write may throw an HTTP status
code, mirroring the try/catch structure of the source).  The managed server
(src/src/server/index.ts) is embedded as a state machine over its in-memory
config and ping timer.  Constant fields that do not depend on the custom
resource (security contexts, probes, env entries, volume mounts, the
managed-by label value) are omitted from the object records: they are
literals in the source and identical on every code path.
-/

namespace KPeering

/-- A peer entry {host, port} as produced by generatePeerList and consumed by
the server config parser. -/
structure Peer where
  host : String
  port : Int
  deriving Repr, DecidableEq

namespace Operator

/-- metadata of the PeeringServer custom resource (fields the operator reads:
name, namespace, uid).  The source marks name/uid non-null with `!`. -/
structure ObjectMeta where
  name : String
  ns : Option String := none
  uid : String := ""
  deriving Repr, DecidableEq

/-- PeeringServerSpec from the operator source: replicas, pingInterval,
optional port / image / resource quantities. -/
structure PeeringServerSpec where
  replicas : Int
  pingInterval : Int
  port : Option Int := none
  image : Option String := none
  reqCpu : Option String := none
  reqMem : Option String := none
  limCpu : Option String := none
  limMem : Option String := none
  deriving Repr, DecidableEq

/-- The PeeringServer custom resource. -/
structure PeeringServer where
  apiVersion : String := "luxor.io/v1"
  kind : String := "PeeringServer"
  metadata : ObjectMeta
  spec : PeeringServerSpec
  deriving Repr, DecidableEq

/-- Status subresource composed by updateStatus. -/
structure PeeringServerStatus where
  replicas : Int
  readyReplicas : Int
  phase : String
  lastUpdated : String
  deriving Repr, DecidableEq

/-- Owner reference placed on every owned object (controller: true,
blockOwnerDeletion: true in the source). -/
structure OwnerRef where
  apiVersion : String
  kind : String
  name : String
  uid : String
  controller : Bool
  blockOwnerDeletion : Bool
  deriving Repr, DecidableEq

/-- The structured content of the ConfigMap key config.json; the source
serialises it with JSON.stringify({peers, pingInterval}, null, 2). -/
structure ConfigJson where
  peers : List Peer
  pingInterval : Int
  deriving Repr, DecidableEq

/-- The owned ConfigMap (name, namespace, app label, owner reference, and the
config.json payload). -/
structure ConfigMapObj where
  name : String
  ns : String
  labelApp : String
  ownerRef : OwnerRef
  configJson : ConfigJson
  deriving Repr, DecidableEq

/-- One Service port entry (the source emits a single TCP port named http). -/
structure ServicePort where
  name : String
  port : Int
  targetPort : Int
  protocol : String
  deriving Repr, DecidableEq

/-- The owned headless Service. -/
structure ServiceObj where
  name : String
  ns : String
  labelApp : String
  ownerRef : OwnerRef
  clusterIP : String
  selectorApp : String
  ports : List ServicePort
  deriving Repr, DecidableEq

/-- Container resource requests/limits after defaulting. -/
structure Resources where
  reqCpu : String
  reqMem : String
  limCpu : String
  limMem : String
  deriving Repr, DecidableEq

/-- The owned StatefulSet (fields the source derives from the PeeringServer;
constant template fields are omitted, see the module docstring). -/
structure StatefulSetObj where
  name : String
  ns : String
  labelApp : String
  ownerRef : OwnerRef
  serviceName : String
  replicas : Int
  selectorApp : String
  image : String
  containerPort : Int
  configMapName : String
  resources : Resources
  deriving Repr, DecidableEq

/-- Owner reference built identically for all three owned objects. -/
def ownerRefOf (ps : PeeringServer) : OwnerRef :=
  { apiVersion := ps.apiVersion
    kind := ps.kind
    name := ps.metadata.name
    uid := ps.metadata.uid
    controller := true
    blockOwnerDeletion := true }

/-- peeringServer.metadata.namespace || this.namespace -/
def resolveNs (opNs : String) (ps : PeeringServer) : String :=
  ps.metadata.ns.getD opNs

/-- DNS host of ordinal i, as built in the generatePeerList loop body. -/
def peerHost (name ns : String) (i : Nat) : String :=
  name ++ "-" ++ toString i ++ "." ++ name ++ "-headless." ++ ns ++ ".svc.cluster.local"

/-- generatePeerList: for (let i = 0; i < replicas; i++) push({host, port}).
A non-positive replicas count yields the empty list, exactly as the loop
does (Int.toNat of a non-positive value is 0). -/
def generatePeerList (name ns : String) (replicas : Int) (port : Int) : List Peer :=
  (List.range replicas.toNat).map fun i => { host := peerHost name ns i, port := port }

/-- createConfigMap: ConfigMap named <name>-config carrying
config.json = {peers, pingInterval}. -/
def createConfigMap (opNs : String) (ps : PeeringServer) (peers : List Peer) : ConfigMapObj :=
  { name := ps.metadata.name ++ "-config"
    ns := resolveNs opNs ps
    labelApp := ps.metadata.name
    ownerRef := ownerRefOf ps
    configJson := { peers := peers, pingInterval := ps.spec.pingInterval } }

/-- createHeadlessService: Service named <name>-headless with clusterIP None,
selector app=<name>, one TCP port named http on spec.port (default 8080). -/
def createHeadlessService (opNs : String) (ps : PeeringServer) : ServiceObj :=
  let port := ps.spec.port.getD 8080
  { name := ps.metadata.name ++ "-headless"
    ns := resolveNs opNs ps
    labelApp := ps.metadata.name
    ownerRef := ownerRefOf ps
    clusterIP := "None"
    selectorApp := ps.metadata.name
    ports := [{ name := "http", port := port, targetPort := port, protocol := "TCP" }] }

/-- createStatefulSet: StatefulSet named <name>, serviceName <name>-headless,
replicas from the spec, image/port/resources defaulted as in the source. -/
def createStatefulSet (opNs : String) (ps : PeeringServer) : StatefulSetObj :=
  let port := ps.spec.port.getD 8080
  { name := ps.metadata.name
    ns := resolveNs opNs ps
    labelApp := ps.metadata.name
    ownerRef := ownerRefOf ps
    serviceName := ps.metadata.name ++ "-headless"
    replicas := ps.spec.replicas
    selectorApp := ps.metadata.name
    image := ps.spec.image.getD "peering-server:latest"
    containerPort := port
    configMapName := ps.metadata.name ++ "-config"
    resources :=
      { reqCpu := ps.spec.reqCpu.getD "100m"
        reqMem := ps.spec.reqMem.getD "128Mi"
        limCpu := ps.spec.limCpu.getD "200m"
        limMem := ps.spec.limMem.getD "256Mi" } }

/-- The Resource Store state visible to one reconcile: the three owned
objects (none when absent, so a read returns 404), the server-populated
StatefulSet status (replicas, readyReplicas) written by the kubelet and
never by the operator, and the PeeringServer status subresource. -/
structure ClusterState where
  configMap : Option ConfigMapObj
  service : Option ServiceObj
  statefulSet : Option StatefulSetObj
  stsStatus : Option (Int × Int)
  psStatus : Option PeeringServerStatus
  deriving Repr, DecidableEq

/-- Errors injected by the Resource Store during one reconcile: each owned
object's create/replace may throw the given HTTP status code, and the status
patch (or the StatefulSet read preceding it) may fail. -/
structure ApiErrors where
  cmWrite : Option Nat := none
  svcWrite : Option Nat := none
  stsWrite : Option Nat := none
  statusPatchFails : Bool := false
  deriving Repr, DecidableEq

/-- The injection for a run in which every Resource Store call succeeds. -/
def noErr : ApiErrors := {}

/-- createOrUpdateConfigMap: read; if present replace with the desired map,
if the read throws 404 create the desired map; a thrown write error
propagates (the catch rethrows anything that is not a read 404). -/
def createOrUpdateConfigMap (err : Option Nat) (cm : ConfigMapObj) (s : ClusterState) :
    Except Nat ClusterState :=
  match s.configMap with
  | some _ =>
    match err with
    | some code => .error code
    | none => .ok { s with configMap := some cm }
  | none =>
    match err with
    | some code => .error code
    | none => .ok { s with configMap := some cm }

/-- createOrUpdateService: read; if present copy the existing clusterIP into
the desired object and replace; if the read throws 404 create; any other
thrown error propagates. -/
def createOrUpdateService (err : Option Nat) (svc : ServiceObj) (s : ClusterState) :
    Except Nat ClusterState :=
  match s.service with
  | some existing =>
    match err with
    | some code => .error code
    | none => .ok { s with service := some { svc with clusterIP := existing.clusterIP } }
  | none =>
    match err with
    | some code => .error code
    | none => .ok { s with service := some svc }

/-- createOrUpdateStatefulSet: read; if present replace with the desired set,
if the read throws 404 create; any other thrown error propagates.  Replacing
does not touch the server-populated status subresource. -/
def createOrUpdateStatefulSet (err : Option Nat) (sts : StatefulSetObj) (s : ClusterState) :
    Except Nat ClusterState :=
  match s.statefulSet with
  | some _ =>
    match err with
    | some code => .error code
    | none => .ok { s with statefulSet := some sts }
  | none =>
    match err with
    | some code => .error code
    | none => .ok { s with statefulSet := some sts }

/-- updateStatus: read the StatefulSet (a 404 when it is absent, or any patch
failure, is caught inside updateStatus and only logged, so the caller never
sees an error); on success patch the status subresource with
{replicas, readyReplicas, phase, lastUpdated := now}, defaulting the counts
to 0 when the StatefulSet status is unset. -/
def updateStatus (patchFails : Bool) (phase : String) (now : String) (s : ClusterState) :
    ClusterState :=
  match s.statefulSet with
  | none => s
  | some _ =>
    if patchFails then s
    else
      let st : PeeringServerStatus :=
        { replicas := (s.stsStatus.map Prod.fst).getD 0
          readyReplicas := (s.stsStatus.map Prod.snd).getD 0
          phase := phase
          lastUpdated := now }
      { s with psStatus := some st }

/-- Result of one reconcile: the new cluster state, and the phase the
reconcile passed to updateStatus (Running on the success path, Failed from
the catch block). reconcile itself never throws: its catch swallows every
error after logging. -/
structure ReconcileResult where
  state : ClusterState
  attemptedPhase : String
  deriving Repr, DecidableEq

/-- reconcile: generate the peer list, then converge ConfigMap, Service and
StatefulSet in that order; on the first thrown error jump to the catch,
which patches status Failed over the state mutated so far; on success patch
status Running.  No validation of replicas or pingInterval is performed. -/
def reconcile (opNs : String) (ps : PeeringServer) (inj : ApiErrors) (now : String)
    (s : ClusterState) : ReconcileResult :=
  let port := ps.spec.port.getD 8080
  let peers := generatePeerList ps.metadata.name (resolveNs opNs ps) ps.spec.replicas port
  let cm := createConfigMap opNs ps peers
  match createOrUpdateConfigMap inj.cmWrite cm s with
  | .error _ =>
    { state := updateStatus inj.statusPatchFails "Failed" now s, attemptedPhase := "Failed" }
  | .ok s1 =>
    match createOrUpdateService inj.svcWrite (createHeadlessService opNs ps) s1 with
    | .error _ =>
      { state := updateStatus inj.statusPatchFails "Failed" now s1, attemptedPhase := "Failed" }
    | .ok s2 =>
      match createOrUpdateStatefulSet inj.stsWrite (createStatefulSet opNs ps) s2 with
      | .error _ =>
        { state := updateStatus inj.statusPatchFails "Failed" now s2, attemptedPhase := "Failed" }
      | .ok s3 =>
        { state := updateStatus inj.statusPatchFails "Running" now s3
          attemptedPhase := "Running" }

/-- A sequence of k reconcile calls on the same PeeringServer, call number i
running under injection injs i at timestamp times i, with no external
mutation in between. -/
def reconcileSeq (opNs : String) (ps : PeeringServer) (injs : Nat → ApiErrors)
    (times : Nat → String) : Nat → ClusterState → ClusterState
  | 0, s => s
  | k + 1, s => (reconcile opNs ps (injs k) (times k) (reconcileSeq opNs ps injs times k s)).state

/-- An observable action of the Watch Engine (the operator's start loop):
listSync is syncExistingResources (list all PeeringServers and reconcile
each), openWatch is one watch.watch call, sleep is the backoff await. -/
inductive EngineOp where
  | listSync
  | openWatch
  | sleep (ms : Nat)
  deriving Repr, DecidableEq

/-- One iteration of the while(true) loop in start(): open the watch; when
the awaited call throws (crashed = true) the catch logs and sleeps 5000 ms
before the loop re-opens the watch.  No list happens inside the loop. -/
def watchIteration (crashed : Bool) : List EngineOp :=
  if crashed then [EngineOp.openWatch, EngineOp.sleep 5000] else [EngineOp.openWatch]

/-- The trace of start(): one syncExistingResources before the loop, then
the loop iterations; crashes lists, per iteration, whether the watch call
threw. -/
def engineTrace (crashes : List Bool) : List EngineOp :=
  EngineOp.listSync :: crashes.flatMap watchIteration

end Operator

namespace Server

/-- Server-side config as parsed from config.json. -/
structure ServerConfig where
  peers : List Peer
  pingInterval : Int
  deriving Repr, DecidableEq

/-- The built-in default installed by the constructor:
{peers: [], pingInterval: 60000}. -/
def defaultConfig : ServerConfig := { peers := [], pingInterval := 60000 }

/-- What loadConfig finds at configPath: the file is absent
(fs.existsSync false), present but unusable (JSON.parse throws, or the
parsed value has no peers array so reading newConfig.peers.length throws
before this.config is assigned; both land in the catch), or present and
parsed to a config. -/
inductive FileState where
  | absent
  | unparsable
  | parsed (c : ServerConfig)
  deriving Repr, DecidableEq

/-- The server state the config pipeline touches: the current config, the
installed ping timer (the interval passed to setInterval; none when no timer
was ever installed), and the trace of pingAllPeers invocations issued so far
(each records the peer list pinged). -/
structure ServerState where
  config : ServerConfig
  pingTimer : Option Int
  pingsIssued : List (List Peer)
  deriving Repr, DecidableEq

/-- startPinging: clear any existing interval, ping all current peers
immediately, then install a new interval timer with the current
config.pingInterval. -/
def startPinging (s : ServerState) : ServerState :=
  { s with pingTimer := some s.config.pingInterval
           pingsIssued := s.pingsIssued ++ [s.config.peers] }

/-- loadConfig: when the file exists and parses, replace the config and
restart the ping schedule; when the file is absent, log and keep going with
the current config; when parsing throws, the catch logs and the prior config
(and timer) stay untouched.  No branch exits the process. -/
def loadConfig (f : FileState) (s : ServerState) : ServerState :=
  match f with
  | .absent => s
  | .unparsable => s
  | .parsed c => startPinging { s with config := c }

/-- The constructor: install the default config with no timer, then run
loadConfig once against the initial file state. -/
def serverInit (f : FileState) : ServerState :=
  loadConfig f { config := defaultConfig, pingTimer := none, pingsIssued := [] }

/-- What the network does to one ping request sent to a peer: respond, or
fail with the error codes the source distinguishes. -/
inductive PingResult where
  | ok (body : String)
  | econnrefused
  | etimedout
  | otherFailure (msg : String)
  deriving Repr, DecidableEq

/-- The logged outcome of pingPeer.  Every branch of pingPeer catches and
logs; pingPeer never rethrows, so its promise always fulfils. -/
inductive PingOutcome where
  | success (body : String)
  | warnRefused
  | warnTimeout
  | errorOther (msg : String)
  deriving Repr, DecidableEq

/-- pingPeer, as a function of the network result for that one peer: classify
and log.  The outcome of a peer depends only on its own request's result. -/
def pingPeer : PingResult → PingOutcome
  | .ok body => .success body
  | .econnrefused => .warnRefused
  | .etimedout => .warnTimeout
  | .otherFailure msg => .errorOther msg

/-- pingAllPeers: map pingPeer over all configured peers and await
Promise.allSettled, i.e. collect every peer's outcome; net gives each
peer's network result. -/
def pingAllPeers (net : Peer → PingResult) (peers : List Peer) : List PingOutcome :=
  peers.map fun p => pingPeer (net p)

/-- Start time (ms after startPinging) of ping round k: startPinging fires
round 0 immediately, and setInterval fires round k at k * interval
regardless of whether earlier rounds have settled. -/
def pingRoundStart (interval : Nat) (k : Nat) : Nat := k * interval

/-- Time at which all outcomes of the round started at pingRoundStart are
observed: pingAllPeers awaits Promise.allSettled, so the round settles when
its slowest request does; durations are the per-peer request durations,
each bounded by the 5000 ms axios timeout. -/
def pingRoundSettled (interval : Nat) (durations : List Nat) (k : Nat) : Nat :=
  pingRoundStart interval k + durations.foldr max 0

/-- True exactly on the FileState that loadConfig accepts (file present and
parsed). -/
def FileState.isParsed : FileState → Bool
  | .parsed _ => true
  | _ => false

end Server

namespace Operator

/-- Status projection that forgets the wall-clock lastUpdated field. -/
def statusSansTime (st : PeeringServerStatus) : Int × Int × String :=
  (st.replicas, st.readyReplicas, st.phase)

/-- A cluster with none of the owned objects yet (every read returns 404). -/
def emptyCluster : ClusterState :=
  { configMap := none, service := none, statefulSet := none, stsStatus := none, psStatus := none }

/-- Concrete valid PeeringServer used to instantiate theorems. -/
def psSmall : PeeringServer :=
  { metadata := { name := "small", ns := some "default", uid := "uid-1" }
    spec := { replicas := 3, pingInterval := 60000 } }

/-- Concrete PeeringServer with a negative replica count. -/
def psNeg : PeeringServer :=
  { metadata := { name := "small", ns := some "default", uid := "uid-1" }
    spec := { replicas := -1, pingInterval := 60000 } }

/-- A cluster in which the StatefulSet named small already exists (so the
read inside updateStatus succeeds). -/
def clusterWithSts : ClusterState :=
  { emptyCluster with statefulSet := some (createStatefulSet "default" psSmall) }

/-- A cluster in which the headless Service already exists with an assigned
clusterIP recorded by the store. -/
def clusterWithSvc : ClusterState :=
  { emptyCluster with service := some (createHeadlessService "default" psSmall) }

/-- Injection in which the ConfigMap replace throws a 409 conflict and every
other Resource Store call succeeds. -/
def inj409 : ApiErrors := { cmWrite := some 409 }

end Operator

namespace Operator

/-- Full characterization of an error-free reconcile: all three owned
objects end up at their desired values, the Service keeping the previously
assigned clusterIP when one existed, and status is patched Running (the
StatefulSet exists at patch time because step three just wrote it). -/
theorem reconcile_noErr (opNs : String) (ps : PeeringServer) (now : String) (s : ClusterState) :
    reconcile opNs ps noErr now s =
      { state :=
          { configMap := some (createConfigMap opNs ps
              (generatePeerList ps.metadata.name (resolveNs opNs ps) ps.spec.replicas
                (ps.spec.port.getD 8080)))
            service := some { createHeadlessService opNs ps with
              clusterIP := (s.service.map ServiceObj.clusterIP).getD "None" }
            statefulSet := some (createStatefulSet opNs ps)
            stsStatus := s.stsStatus
            psStatus := some
              { replicas := (s.stsStatus.map Prod.fst).getD 0
                readyReplicas := (s.stsStatus.map Prod.snd).getD 0
                phase := "Running"
                lastUpdated := now } }
        attemptedPhase := "Running" } := by
  rcases s with ⟨cmO, svcO, stsO, stsSt, psSt⟩
  cases cmO <;> cases svcO <;> cases stsO <;> rfl

/-- No Resource Store write performed by reconcile touches the
server-populated StatefulSet status, whatever errors occur. -/
theorem reconcile_stsStatus (opNs : String) (ps : PeeringServer) (inj : ApiErrors)
    (now : String) (s : ClusterState) :
    (reconcile opNs ps inj now s).state.stsStatus = s.stsStatus := by
  rcases s with ⟨cmO, svcO, stsO, stsSt, psSt⟩
  rcases inj with ⟨c, v, t, b⟩
  cases c <;> cases v <;> cases t <;> cases b <;> cases cmO <;> cases svcO <;> cases stsO <;> rfl

/-- Whatever errors occur, a reconcile of a state whose Service exists
leaves a Service with the same clusterIP: the error paths do not touch the
Service and the success path copies the existing clusterIP into the desired
object. -/
theorem reconcile_clusterIP (opNs : String) (ps : PeeringServer) (inj : ApiErrors)
    (now : String) (s : ClusterState) (sv : ServiceObj) (h : s.service = some sv) :
    ((reconcile opNs ps inj now s).state.service).map ServiceObj.clusterIP =
      some sv.clusterIP := by
  rcases s with ⟨cmO, svcO, stsO, stsSt, psSt⟩
  cases h
  rcases inj with ⟨c, v, t, b⟩
  cases c <;> cases v <;> cases t <;> cases b <;> cases cmO <;> cases stsO <;> rfl

/-- C1: for a PeeringServer with name n, namespace ns, replicas N >= 0 and
port p (default 8080), an error-free Reconcile produces a ConfigMap named
n-config whose config.json has a peers list of exactly N elements, element i
being the host built from the DNS template with ordinal i together with port
p, in that order, and whose pingInterval equals PS.spec.pingInterval. -/
theorem C1_peer_list_deterministic (opNs now : String) (ps : PeeringServer)
    (s : ClusterState) (hN : 0 ≤ ps.spec.replicas) :
    ∃ cm : ConfigMapObj,
      (reconcile opNs ps noErr now s).state.configMap = some cm ∧
      cm.name = ps.metadata.name ++ "-config" ∧
      (cm.configJson.peers.length : Int) = ps.spec.replicas ∧
      (∀ i : Nat, i < cm.configJson.peers.length →
        cm.configJson.peers[i]? =
          some { host := peerHost ps.metadata.name (resolveNs opNs ps) i
                 port := ps.spec.port.getD 8080 }) ∧
      cm.configJson.pingInterval = ps.spec.pingInterval := by
  refine ⟨createConfigMap opNs ps
      (generatePeerList ps.metadata.name (resolveNs opNs ps) ps.spec.replicas
        (ps.spec.port.getD 8080)), ?_, rfl, ?_, ?_, rfl⟩
  · rw [reconcile_noErr]
  · simp [createConfigMap, generatePeerList, Int.toNat_of_nonneg hN]
  · intro i hi
    simp only [createConfigMap, generatePeerList, List.length_map, List.length_range] at hi ⊢
    rw [List.getElem?_map, List.getElem?_range hi]
    rfl

/-- Witness for C1 at a concrete input: psSmall (replicas 3) reconciled over
the empty cluster. -/
theorem C1_peer_list_deterministic_witness :
    (0 : Int) ≤ psSmall.spec.replicas ∧
    (∃ cm : ConfigMapObj,
      (reconcile "default" psSmall noErr "t0" emptyCluster).state.configMap = some cm ∧
      cm.name = psSmall.metadata.name ++ "-config" ∧
      (cm.configJson.peers.length : Int) = psSmall.spec.replicas ∧
      (∀ i : Nat, i < cm.configJson.peers.length →
        cm.configJson.peers[i]? =
          some { host := peerHost psSmall.metadata.name (resolveNs "default" psSmall) i
                 port := psSmall.spec.port.getD 8080 }) ∧
      cm.configJson.pingInterval = psSmall.spec.pingInterval) :=
  ⟨by decide, C1_peer_list_deterministic "default" "t0" psSmall emptyCluster (by decide)⟩

/-- Applying an error-free reconcile to the output of an error-free
reconcile changes nothing in the three owned objects, and changes the status
only in lastUpdated. -/
theorem reconcile_noErr_stable (opNs : String) (ps : PeeringServer) (now1 now2 : String)
    (x : ClusterState) :
    ((reconcile opNs ps noErr now2 (reconcile opNs ps noErr now1 x).state).state.configMap =
        (reconcile opNs ps noErr now1 x).state.configMap) ∧
    ((reconcile opNs ps noErr now2 (reconcile opNs ps noErr now1 x).state).state.service =
        (reconcile opNs ps noErr now1 x).state.service) ∧
    ((reconcile opNs ps noErr now2 (reconcile opNs ps noErr now1 x).state).state.statefulSet =
        (reconcile opNs ps noErr now1 x).state.statefulSet) ∧
    (((reconcile opNs ps noErr now2 (reconcile opNs ps noErr now1 x).state).state.psStatus).map
        statusSansTime =
      ((reconcile opNs ps noErr now1 x).state.psStatus).map statusSansTime) := by
  rw [reconcile_noErr opNs ps now1 x]
  rw [reconcile_noErr opNs ps now2]
  simp [statusSansTime]

/-- After at least one error-free reconcile, further error-free reconciles
leave the three owned objects and the timeless status projection fixed. -/
theorem reconcileSeq_projections (opNs : String) (ps : PeeringServer) (times : Nat → String)
    (s : ClusterState) (j : Nat) :
    ((reconcileSeq opNs ps (fun _ => noErr) times (j + 1) s).configMap =
        (reconcileSeq opNs ps (fun _ => noErr) times 1 s).configMap) ∧
    ((reconcileSeq opNs ps (fun _ => noErr) times (j + 1) s).service =
        (reconcileSeq opNs ps (fun _ => noErr) times 1 s).service) ∧
    ((reconcileSeq opNs ps (fun _ => noErr) times (j + 1) s).statefulSet =
        (reconcileSeq opNs ps (fun _ => noErr) times 1 s).statefulSet) ∧
    (((reconcileSeq opNs ps (fun _ => noErr) times (j + 1) s).psStatus).map statusSansTime =
      ((reconcileSeq opNs ps (fun _ => noErr) times 1 s).psStatus).map statusSansTime) := by
  induction j with
  | zero => exact ⟨rfl, rfl, rfl, rfl⟩
  | succ j ih =>
    obtain ⟨h1, h2, h3, h4⟩ := ih
    have hs := reconcile_noErr_stable opNs ps (times j) (times (j + 1))
      (reconcileSeq opNs ps (fun _ => noErr) times j s)
    exact ⟨hs.1.trans h1, hs.2.1.trans h2, hs.2.2.1.trans h3, hs.2.2.2.trans h4⟩

/-- C2: reconcile is idempotent.  A sequence of k >= 1 error-free Reconcile
calls (timestamps may differ per call, no external mutation in between)
leaves exactly the ConfigMap, Service and StatefulSet of a single call, and
the same status up to lastUpdated. -/
theorem C2_reconcile_idempotent (opNs : String) (ps : PeeringServer) (times : Nat → String)
    (s : ClusterState) (k : Nat) (hk : 1 ≤ k) :
    ((reconcileSeq opNs ps (fun _ => noErr) times k s).configMap =
        (reconcile opNs ps noErr (times 0) s).state.configMap) ∧
    ((reconcileSeq opNs ps (fun _ => noErr) times k s).service =
        (reconcile opNs ps noErr (times 0) s).state.service) ∧
    ((reconcileSeq opNs ps (fun _ => noErr) times k s).statefulSet =
        (reconcile opNs ps noErr (times 0) s).state.statefulSet) ∧
    (((reconcileSeq opNs ps (fun _ => noErr) times k s).psStatus).map statusSansTime =
      ((reconcile opNs ps noErr (times 0) s).state.psStatus).map statusSansTime) := by
  obtain ⟨j, rfl⟩ : ∃ j, k = j + 1 := ⟨k - 1, by omega⟩
  exact reconcileSeq_projections opNs ps times s j

/-- Witness for C2 at a concrete input: two reconciles of psSmall over the
empty cluster agree with one. -/
theorem C2_reconcile_idempotent_witness :
    (1 ≤ 2) ∧
    (((reconcileSeq "default" psSmall (fun _ => noErr) (fun i => toString i) 2 emptyCluster).configMap =
        (reconcile "default" psSmall noErr (toString 0) emptyCluster).state.configMap) ∧
    ((reconcileSeq "default" psSmall (fun _ => noErr) (fun i => toString i) 2 emptyCluster).service =
        (reconcile "default" psSmall noErr (toString 0) emptyCluster).state.service) ∧
    ((reconcileSeq "default" psSmall (fun _ => noErr) (fun i => toString i) 2 emptyCluster).statefulSet =
        (reconcile "default" psSmall noErr (toString 0) emptyCluster).state.statefulSet) ∧
    (((reconcileSeq "default" psSmall (fun _ => noErr) (fun i => toString i) 2 emptyCluster).psStatus).map statusSansTime =
      ((reconcile "default" psSmall noErr (toString 0) emptyCluster).state.psStatus).map statusSansTime)) :=
  ⟨by decide,
    C2_reconcile_idempotent "default" psSmall (fun i => toString i) emptyCluster 2 (by decide)⟩

/-- C3: once the headless Service has an assigned clusterIP, no sequence of
Reconcile calls (whatever Resource Store errors occur in them) ever changes
it, and the replace path explicitly copies the existing clusterIP into the
desired object. -/
theorem C3_clusterIP_preserved (opNs : String) (ps : PeeringServer) (injs : Nat → ApiErrors)
    (times : Nat → String) (s : ClusterState) (sv : ServiceObj) (h : s.service = some sv) :
    (∀ k : Nat,
      ((reconcileSeq opNs ps injs times k s).service).map ServiceObj.clusterIP =
        some sv.clusterIP) ∧
    (∀ (svc existing : ServiceObj) (st : ClusterState), st.service = some existing →
      createOrUpdateService none svc st =
        .ok { st with service := some { svc with clusterIP := existing.clusterIP } }) := by
  constructor
  · intro k
    induction k with
    | zero => rw [reconcileSeq, h]; rfl
    | succ k ih =>
      obtain ⟨sv2, h1, h2⟩ := Option.map_eq_some'.mp ih
      have := reconcile_clusterIP opNs ps (injs k) (times k)
        (reconcileSeq opNs ps injs times k s) sv2 h1
      rw [reconcileSeq, this, h2]
  · intro svc existing st hst
    simp [createOrUpdateService, hst]

/-- Witness for C3 at a concrete input: a cluster whose Service already
exists, followed by two reconciles (the second under a 409 injection). -/
theorem C3_clusterIP_preserved_witness :
    clusterWithSvc.service = some (createHeadlessService "default" psSmall) ∧
    ((∀ k : Nat,
      ((reconcileSeq "default" psSmall (fun i => if i = 1 then inj409 else noErr)
          (fun i => toString i) k clusterWithSvc).service).map ServiceObj.clusterIP =
        some (createHeadlessService "default" psSmall).clusterIP) ∧
    (∀ (svc existing : ServiceObj) (st : ClusterState), st.service = some existing →
      createOrUpdateService none svc st =
        .ok { st with service := some { svc with clusterIP := existing.clusterIP } })) :=
  ⟨rfl, C3_clusterIP_preserved "default" psSmall (fun i => if i = 1 then inj409 else noErr)
    (fun i => toString i) clusterWithSvc (createHeadlessService "default" psSmall) rfl⟩

/-- C4 counterexample: at replicas = -1 an error-free Reconcile does not
reject the spec.  It creates the StatefulSet (with the negative replica
count copied into it) and reports phase Running, contradicting the claimed
validation error, phase Failed, and absence of StatefulSet writes. -/
theorem C4_no_validation_counterexample :
    psNeg.spec.replicas < 0 ∧
    (reconcile "default" psNeg noErr "t0" emptyCluster).state.statefulSet =
      some (createStatefulSet "default" psNeg) ∧
    (createStatefulSet "default" psNeg).replicas = -1 ∧
    (reconcile "default" psNeg noErr "t0" emptyCluster).attemptedPhase = "Running" := by
  exact ⟨by decide, by rw [reconcile_noErr], rfl, by rw [reconcile_noErr]⟩

/-- C4 amended: reconcile performs no validation of the spec.  For
replicas < 0 an error-free Reconcile still writes the StatefulSet, copying
the negative replica count into it, publishes an empty peer list, and
reports phase Running; no spec value (pingInterval included) is ever
rejected. -/
theorem C4_no_validation (opNs now : String) (ps : PeeringServer) (s : ClusterState)
    (hneg : ps.spec.replicas < 0) :
    (reconcile opNs ps noErr now s).attemptedPhase = "Running" ∧
    (reconcile opNs ps noErr now s).state.statefulSet = some (createStatefulSet opNs ps) ∧
    (createStatefulSet opNs ps).replicas = ps.spec.replicas ∧
    (((reconcile opNs ps noErr now s).state.configMap).map (fun cm => cm.configJson.peers) =
      some []) ∧
    (∀ ps2 : PeeringServer, (reconcile opNs ps2 noErr now s).attemptedPhase = "Running") := by
  rw [reconcile_noErr]
  refine ⟨rfl, rfl, rfl, ?_, fun ps2 => by rw [reconcile_noErr]⟩
  simp [createConfigMap, generatePeerList, Int.toNat_of_nonpos (le_of_lt hneg)]

/-- Witness for the amended C4 at the concrete input replicas = -1. -/
theorem C4_no_validation_witness :
    psNeg.spec.replicas < 0 ∧
    ((reconcile "ns0" psNeg noErr "t1" emptyCluster).attemptedPhase = "Running" ∧
    (reconcile "ns0" psNeg noErr "t1" emptyCluster).state.statefulSet =
      some (createStatefulSet "ns0" psNeg) ∧
    (createStatefulSet "ns0" psNeg).replicas = psNeg.spec.replicas ∧
    (((reconcile "ns0" psNeg noErr "t1" emptyCluster).state.configMap).map
      (fun cm => cm.configJson.peers) = some []) ∧
    (∀ ps2 : PeeringServer, (reconcile "ns0" ps2 noErr "t1" emptyCluster).attemptedPhase =
      "Running")) :=
  ⟨by decide, C4_no_validation "ns0" "t1" psNeg emptyCluster (by decide)⟩

/-- C5 counterexample: a reconcile whose only Resource Store failure is a
409 conflict on the ConfigMap write (the StatefulSet exists, the status
patch succeeds) ends with status phase Failed — the code special-cases no
conflict, contradicting the claim that a 409 is transient and does not set
phase Failed. -/
theorem C5_conflict_sets_failed_counterexample :
    inj409.cmWrite = some 409 ∧ inj409.svcWrite = none ∧ inj409.stsWrite = none ∧
    inj409.statusPatchFails = false ∧
    ((reconcile "default" psSmall inj409 "t0" clusterWithSts).state.psStatus).map
      PeeringServerStatus.phase = some "Failed" :=
  ⟨rfl, rfl, rfl, rfl, rfl⟩

/-- C5 amended: when the StatefulSet is readable and the status patch
succeeds, phase is Failed after a Reconcile attempt iff the attempt raised
an error of any kind — 409 conflicts included, they are not special-cased —
and an error-free attempt sets phase Running. -/
theorem C5_phase_reflects_any_error (opNs now : String) (ps : PeeringServer) (inj : ApiErrors)
    (s : ClusterState) (hPatch : inj.statusPatchFails = false) (hSts : s.statefulSet.isSome) :
    ((((reconcile opNs ps inj now s).state.psStatus).map PeeringServerStatus.phase =
        some "Failed") ↔
      (inj.cmWrite.isSome ∨ inj.svcWrite.isSome ∨ inj.stsWrite.isSome)) ∧
    (inj.cmWrite = none → inj.svcWrite = none → inj.stsWrite = none →
      (((reconcile opNs ps inj now s).state.psStatus).map PeeringServerStatus.phase =
        some "Running")) := by
  rcases s with ⟨cmO, svcO, stsO, stsSt, psSt⟩
  rcases inj with ⟨c, v, t, b⟩
  simp only at hPatch hSts
  subst hPatch
  cases stsO with
  | none => simp at hSts
  | some sts =>
    cases c <;> cases v <;> cases t <;> cases cmO <;> cases svcO <;>
      simp [reconcile, createOrUpdateConfigMap, createOrUpdateService,
        createOrUpdateStatefulSet, updateStatus]

/-- Witness for the amended C5 at a concrete input: a lone 409 conflict on
the ConfigMap write. -/
theorem C5_phase_reflects_any_error_witness :
    (inj409.statusPatchFails = false ∧ clusterWithSts.statefulSet.isSome) ∧
    (((((reconcile "default" psSmall inj409 "t0" clusterWithSts).state.psStatus).map
        PeeringServerStatus.phase = some "Failed") ↔
      (inj409.cmWrite.isSome ∨ inj409.svcWrite.isSome ∨ inj409.stsWrite.isSome)) ∧
    (inj409.cmWrite = none → inj409.svcWrite = none → inj409.stsWrite = none →
      (((reconcile "default" psSmall inj409 "t0" clusterWithSts).state.psStatus).map
        PeeringServerStatus.phase = some "Running"))) :=
  ⟨⟨rfl, rfl⟩, C5_phase_reflects_any_error "default" "t0" psSmall inj409 clusterWithSts rfl rfl⟩

/-- C6: on any error while converging the owned objects the reconcile calls
updateStatus with phase Failed (and only then), and a failure of the status
patch itself never changes what the reconcile reports: the phase it passes
to updateStatus is the same whether or not the status patch fails, because
updateStatus catches its own errors and reconcile never rethrows. -/
theorem C6_error_repatch_status_advisory (opNs now : String) (ps : PeeringServer)
    (inj : ApiErrors) (s : ClusterState) :
    ((reconcile opNs ps inj now s).attemptedPhase = "Failed" ↔
      (inj.cmWrite.isSome ∨ inj.svcWrite.isSome ∨ inj.stsWrite.isSome)) ∧
    (∀ b1 b2 : Bool,
      (reconcile opNs ps { inj with statusPatchFails := b1 } now s).attemptedPhase =
        (reconcile opNs ps { inj with statusPatchFails := b2 } now s).attemptedPhase) := by
  rcases s with ⟨cmO, svcO, stsO, stsSt, psSt⟩
  rcases inj with ⟨c, v, t, b⟩
  constructor
  · cases c <;> cases v <;> cases t <;> cases cmO <;> cases svcO <;> cases stsO <;>
      simp [reconcile, createOrUpdateConfigMap, createOrUpdateService,
        createOrUpdateStatefulSet]
  · intro b1 b2
    cases c <;> cases v <;> cases t <;> cases cmO <;> cases svcO <;> cases stsO <;> rfl

/-- C9 counterexample: in a run whose first watch attempt crashes, the trace
is listSync, openWatch, sleep 5000, openWatch — the watch is re-opened after
the crash and the backoff with no fresh list in between, contradicting the
claim that every watch failure is followed by a fresh list of all
PeeringServers before the watch is re-opened. -/
theorem C9_no_relist_counterexample :
    engineTrace [true, false] =
      [EngineOp.listSync, EngineOp.openWatch, EngineOp.sleep 5000, EngineOp.openWatch] ∧
    EngineOp.openWatch ∈ (engineTrace [true, false]).drop 2 ∧
    EngineOp.listSync ∉ (engineTrace [true, false]).drop 2 := by decide

/-- C9 amended: the Watch Engine lists (and reconciles) all PeeringServers
exactly once, at startup before the first watch open; after a watch failure
it waits the 5 s backoff and then re-opens the watch directly, with no fresh
list, so events missed during the disconnection can be lost. -/
theorem C9_single_startup_list_backoff (crashes : List Bool) :
    (engineTrace crashes).count EngineOp.listSync = 1 ∧
    (engineTrace crashes).head? = some EngineOp.listSync ∧
    watchIteration true = [EngineOp.openWatch, EngineOp.sleep 5000] ∧
    watchIteration false = [EngineOp.openWatch] := by
  refine ⟨?_, rfl, rfl, rfl⟩
  have h : EngineOp.listSync ∉ crashes.flatMap watchIteration := by
    intro hmem
    obtain ⟨c, _, hc⟩ := List.mem_flatMap.mp hmem
    cases c <;> simp [watchIteration] at hc
  simp [engineTrace, List.count_cons_self, List.count_eq_zero.mpr h]

end Operator

namespace Server

/-- loadConfig leaves the whole server state untouched whenever the file
does not load (absent, or caught during parsing). -/
theorem loadConfig_skip (f : FileState) (s : ServerState) (h : f.isParsed = false) :
    loadConfig f s = s := by
  cases f with
  | absent => rfl
  | unparsable => rfl
  | parsed c => simp [FileState.isParsed] at h

/-- Folding loadConfig over any run of non-loading file states is the
identity on the server state. -/
theorem foldl_loadConfig_skip (fs : List FileState) (s : ServerState)
    (h : ∀ f ∈ fs, f.isParsed = false) :
    fs.foldl (fun s f => loadConfig f s) s = s := by
  induction fs generalizing s with
  | nil => rfl
  | cons f fs ih =>
    rw [List.foldl_cons, loadConfig_skip f s (h f (by simp))]
    exact ih s fun g hg => h g (by simp [hg])

/-- C7: the server never dies on a configuration problem.  With the config
file absent at startup the constructor leaves the built-in defaults
(peers = [], pingInterval = 60000 ms) in place and carries on, and a reload
whose parse throws (caught before this.config is assigned) leaves the prior
config — indeed the whole state — unchanged.  Every branch of loadConfig
returns normally; none exits the process. -/
theorem C7_config_failures_tolerated :
    (serverInit FileState.absent).config = defaultConfig ∧
    defaultConfig = { peers := [], pingInterval := 60000 } ∧
    (∀ s : ServerState, loadConfig FileState.unparsable s = s) ∧
    (∀ s : ServerState, loadConfig FileState.absent s = s) :=
  ⟨rfl, rfl, fun _ => rfl, fun _ => rfl⟩

/-- C10 (implicit): startPinging runs only from the successful branch of
loadConfig, so with the file absent at startup no ping timer exists and no
pingAllPeers call is ever issued (despite the default config being in
place), this persists across any run of absent/unparsable loads until a
load first succeeds, a successful load installs the timer with the newly
loaded interval, and a failed reload leaves the previously installed timer
(and its interval) untouched. -/
theorem C10_timer_only_on_successful_load :
    (serverInit FileState.absent).pingTimer = none ∧
    (serverInit FileState.absent).pingsIssued = [] ∧
    (∀ fs : List FileState, (∀ f ∈ fs, f.isParsed = false) →
      ((fs.foldl (fun s f => loadConfig f s) (serverInit FileState.absent)).pingTimer = none ∧
        (fs.foldl (fun s f => loadConfig f s) (serverInit FileState.absent)).pingsIssued = [])) ∧
    (∀ (s : ServerState) (c : ServerConfig),
      (loadConfig (FileState.parsed c) s).pingTimer = some c.pingInterval) ∧
    (∀ (s : ServerState) (f : FileState), f.isParsed = false → loadConfig f s = s) := by
  refine ⟨rfl, rfl, ?_, fun _ _ => rfl, fun s f h => loadConfig_skip f s h⟩
  intro fs h
  rw [foldl_loadConfig_skip fs _ h]
  exact ⟨rfl, rfl⟩

/-- Witness for C10 at a concrete input: an absent file at startup followed
by an absent and an unparsable reload leaves no timer installed. -/
theorem C10_timer_only_on_successful_load_witness :
    (∀ f ∈ [FileState.absent, FileState.unparsable], f.isParsed = false) ∧
    (([FileState.absent, FileState.unparsable].foldl (fun s f => loadConfig f s)
        (serverInit FileState.absent)).pingTimer = none) :=
  ⟨by decide,
    (C10_timer_only_on_successful_load.2.2.1
      [FileState.absent, FileState.unparsable] (by decide)).1⟩

/-- C8 counterexample: with pingInterval 1000 ms and a single peer whose
request runs to the 5000 ms axios timeout (durations within the per-request
bound), round 0 settles at 5000 ms, long after setInterval fires round 1 at
1000 ms — contradicting the claim that all outcomes of a tick are observed
before the next tick is scheduled. -/
theorem C8_tick_overlap_counterexample :
    (∀ d ∈ [5000], d ≤ 5000) ∧
    pingRoundStart 1000 1 < pingRoundSettled 1000 [5000] 0 := by decide

/-- C8 amended: within one tick every configured peer is pinged and each
peer's outcome is a function of that peer's own network result alone —
pingPeer catches every failure and Promise.allSettled collects all outcomes,
so one peer's failure can neither prevent nor cancel another's ping — but
ticks are fired by setInterval on a fixed period regardless of when the
previous tick's outcomes are observed. -/
theorem C8_ping_independence_fixed_schedule :
    (∀ (net : Peer → PingResult) (peers : List Peer) (i : Nat),
      (pingAllPeers net peers)[i]? = (peers[i]?).map fun p => pingPeer (net p)) ∧
    (∀ (net : Peer → PingResult) (peers : List Peer),
      (pingAllPeers net peers).length = peers.length) ∧
    (∀ interval k : Nat,
      pingRoundStart interval (k + 1) = pingRoundStart interval k + interval) := by
  refine ⟨?_, ?_, ?_⟩
  · intro net peers i
    simp [pingAllPeers]
  · intro net peers
    simp [pingAllPeers]
  · intro interval k
    simp [pingRoundStart, Nat.succ_mul]

end Server

end KPeering
